import Mathlib

/-!
# POS-Printer-Service: verification of the core print pipeline

Shallow embedding of the print-job pipeline of the POS printer service:
the sequential print queue (`src/lib/printQueue.ts`), the retrying
printer manager (`src/lib/printerManager.ts`) and the device adapters
(`src/lib/adapters/*.ts`).  Asynchronous JavaScript methods are modelled
as pure functions from an explicit behaviour/oracle (the outcomes of the
underlying I/O calls) and the relevant state to a result together with a
trace of observable events; `Promise` rejection / `throw` is modelled
with `Except String`.
-/

namespace POSPrinter

/-! ## Print queue (`src/lib/printQueue.ts`)

A queued job holds the receipt `data` and its two completion callbacks;
we identify the pair of callbacks by a job id, and record callback
invocations as trace events.  `processQueue` shifts the head job, awaits
`printFunction(job.data)`, resolves or rejects that job's handle, and
continues with the rest; `clear` splices out all still-pending jobs and
rejects each with "Print queue was cleared". -/

structure Job where
  id : Nat
  data : String
  deriving DecidableEq, Repr

/-- Observable events of a queue run: dispatch of the print function
(begin/end of the awaited `printFunction` call) and settlement of a
job's promise handle. -/
inductive QEvent where
  | printStart (data : String)
  | printEnd (data : String)
  | resolved (id : Nat)
  | rejected (id : Nat) (msg : String)
  deriving DecidableEq, Repr

/-- `job.resolve()` / `job.reject(error)` after the awaited print call,
depending on its outcome (`printQueue.ts` lines 56-62). -/
def settleEvent (j : Job) (r : Except String Unit) : QEvent :=
  match r with
  | .ok _ => .resolved j.id
  | .error e => .rejected j.id e

/-- `clear()` (`printQueue.ts` lines 90-95): splice all pending jobs out
of the queue and reject each with "Print queue was cleared".  Returns
the rejection events and the queue contents afterwards. -/
def clearQueue (pending : List Job) : List QEvent × List Job :=
  (pending.map (fun j => QEvent.rejected j.id "Print queue was cleared"), [])

/-- The dispatch loop of `processQueue` (`printQueue.ts` lines 39-71)
run over the queue contents, producing the event trace.  `printF` gives
the outcome of `printFunction` on each payload.  `clearAt = some k`
models a `clear()` call arriving while the job `k` positions from the
current head is in flight (during its awaited print): the splice and the
rejections happen between that job's dispatch and its own settlement,
after which the loop finds the queue empty and stops. -/
def processJobs (printF : String → Except String Unit) :
    List Job → Option Nat → List QEvent
  | [], _ => []
  | j :: rest, none =>
      QEvent.printStart j.data :: QEvent.printEnd j.data ::
        settleEvent j (printF j.data) :: processJobs printF rest none
  | j :: rest, some 0 =>
      QEvent.printStart j.data ::
        (clearQueue rest).1 ++
          [QEvent.printEnd j.data, settleEvent j (printF j.data)]
  | j :: rest, some (k + 1) =>
      QEvent.printStart j.data :: QEvent.printEnd j.data ::
        settleEvent j (printF j.data) :: processJobs printF rest (some k)

/-- Projection of a trace to its dispatch (start/end) events. -/
def startEnds (evs : List QEvent) : List QEvent :=
  evs.filter fun e =>
    match e with
    | .printStart _ => true
    | .printEnd _ => true
    | _ => false

/-- Projection of a trace to its settlement (resolve/reject) events. -/
def settles (evs : List QEvent) : List QEvent :=
  evs.filter fun e =>
    match e with
    | .resolved _ => true
    | .rejected _ _ => true
    | _ => false

/-! ## Printer manager (`src/lib/printerManager.ts`)

`PrinterManager.print` is modelled as a function of the outcomes of the
underlying adapter calls (an `MBehavior` oracle) to its own outcome and
the trace of adapter/sleep calls it makes.  The adapter is assumed
initialized (the constructor throws otherwise). -/

/-- Outcomes of the underlying calls made by `PrinterManager.print`:
whether `adapter.isConnected()` holds on entry, the outcome of the
initial `connect()`, and per attempt number (1-based) the outcomes of
`adapter.print`, of the `disconnect()` and of the `connect()` performed
in the reconnect step after that attempt fails. -/
structure MBehavior where
  initConnected : Bool
  connectResult : Except String Unit
  printResult : Nat → Except String Unit
  disconnectResult : Nat → Except String Unit
  reconnectConnectResult : Nat → Except String Unit

/-- Observable calls made by `PrinterManager.print`. -/
inductive MEvent where
  | connectCall
  | disconnectCall
  | printCall (attempt : Nat)
  | delayCall
  | warnLog
  deriving DecidableEq, Repr

/-- `lastError?.message || 'Unknown error'` (`printerManager.ts` line
102): an absent last error, or one with an empty (falsy) message,
yields `'Unknown error'`. -/
def lastErrorMessage : Option String → String
  | none => "Unknown error"
  | some m => if m = "" then "Unknown error" else m

/-- The error thrown when all retries are exhausted
(`printerManager.ts` lines 101-103). -/
def exhaustedMessage (maxRetries : Int) (lastErr : Option String) : String :=
  "Print failed after " ++ toString maxRetries ++ " attempts. Last error: " ++
    lastErrorMessage lastErr

/-- The reconnect step after a failed non-final attempt
(`printerManager.ts` lines 89-95): `await this.disconnect(); await
this.connect();` inside a `try` whose `catch` only logs a warning.  If
`disconnect` throws, `connect` is not reached; either error is
swallowed. -/
def reconnectEvents (b : MBehavior) (attempt : Nat) : List MEvent :=
  match b.disconnectResult attempt with
  | .error _ => [.disconnectCall, .warnLog]
  | .ok _ =>
      match b.reconnectConnectResult attempt with
      | .error _ => [.disconnectCall, .connectCall, .warnLog]
      | .ok _ => [.disconnectCall, .connectCall]

/-- The retry loop `for (attempt = 1; attempt <= maxRetries; attempt++)`
(`printerManager.ts` lines 76-103), with `remaining` iterations left and
the current 1-based `attempt` number.  On success of `adapter.print` it
returns immediately; on failure of a non-final attempt it awaits the
retry delay and runs the reconnect step; when the loop exits it throws
the exhausted-retries error built from the last recorded error. -/
def retryLoop (b : MBehavior) (maxRetries : Int) :
    Nat → Nat → Option String → Except String Unit × List MEvent
  | _, 0, lastErr => (.error (exhaustedMessage maxRetries lastErr), [])
  | attempt, r + 1, _ =>
      match b.printResult attempt with
      | .ok _ => (.ok (), [.printCall attempt])
      | .error e =>
          let mid : List MEvent :=
            if r = 0 then [] else MEvent.delayCall :: reconnectEvents b attempt
          let rest := retryLoop b maxRetries (attempt + 1) r (some e)
          (rest.1, (MEvent.printCall attempt :: mid) ++ rest.2)

/-- `PrinterManager.print` (`printerManager.ts` lines 63-104): if the
adapter reports not connected, `await this.connect()` once — its error
propagates unchanged; then the retry loop runs `maxRetries` times
(`maxRetries` is an unvalidated JavaScript number, modelled as `Int`;
a non-positive value gives zero iterations). -/
def managerPrint (b : MBehavior) (maxRetries : Int) :
    Except String Unit × List MEvent :=
  if b.initConnected then
    retryLoop b maxRetries 1 maxRetries.toNat none
  else
    match b.connectResult with
    | .error e => (.error e, [MEvent.connectCall])
    | .ok _ =>
        let rest := retryLoop b maxRetries 1 maxRetries.toNat none
        (rest.1, MEvent.connectCall :: rest.2)

/-- The attempt numbers of the `adapter.print` calls in a trace. -/
def printCalls (evs : List MEvent) : List Nat :=
  evs.filterMap fun e =>
    match e with
    | .printCall n => some n
    | _ => none

def isPrintCall : MEvent → Bool
  | .printCall _ => true
  | _ => false

def isConnectCall : MEvent → Bool
  | .connectCall => true
  | _ => false

/-- Number of `connect()` calls made strictly before the first
`adapter.print` call of a trace. -/
def connectCallsBeforePrint (evs : List MEvent) : Nat :=
  ((evs.takeWhile fun e => !(isPrintCall e)).filter isConnectCall).length

/-! ## Device adapters (`src/lib/adapters/*.ts`)

Each adapter is modelled with its JS-visible state (the `connected`
flag of `BaseAdapter` plus transport-specific fields) and, for the
serial adapter, an environment tracking the OS-level port handles it
has created, so that handle lifetime (teardown versus leak) is
observable.  Each `print` returns its outcome together with the list of
transport operations it performed. -/

/-- Node's `Buffer.from(data, "utf8")` as a byte list. -/
def utf8Bytes (s : String) : List Nat :=
  (s.data.flatMap String.utf8EncodeChar).map UInt8.toNat

/-- The single buffer written by `SerialAdapter.print`
(`serialAdapter.ts` lines 109-125): `ESC @` init, the UTF-8 payload,
`"\n\n"`, then the `GS V A 0` paper-cut sequence. -/
def printBuffer (data : String) : List Nat :=
  [0x1b, 0x40] ++ utf8Bytes data ++ utf8Bytes "\n\n" ++ [0x1d, 0x56, 0x41, 0x00]

/-- State of a `SerialAdapter` plus its OS environment: the inherited
`connected` flag, `this.port` as the id of the referenced
`SerialPortStream` (if any), the ids of all OS handles currently open,
and a fresh-id counter for newly constructed ports. -/
structure SerialEnv where
  comPort : String
  connected : Bool
  port : Option Nat
  openHandles : List Nat
  nextId : Nat
  deriving DecidableEq, Repr

/-- `this.port?.isOpen` for the referenced port. -/
def portOpen (s : SerialEnv) : Bool :=
  match s.port with
  | some pid => s.openHandles.contains pid
  | none => false

/-- How `SerialAdapter.connect` can go: the `SerialPortStream`
constructor throws (the `catch` branch), or it succeeds and
`port.open`'s callback reports the given result. -/
inductive SerialConnectOutcome where
  | created (openResult : Except String Unit)
  | createThrew (msg : String)

/-- `SerialAdapter.connect` (`serialAdapter.ts` lines 30-65): builds a
fresh `SerialPortStream` and assigns it to `this.port` — without
closing the previously referenced port — then opens it.  On open
failure `connected` is cleared and the (unopened) new port stays
referenced; if the constructor throws, `this.port` keeps its old
value. -/
def serialConnect (oc : SerialConnectOutcome) (s : SerialEnv) :
    Except String Unit × SerialEnv :=
  match oc with
  | .createThrew e =>
      (.error ("Failed to create serial port connection: " ++ e),
        { s with connected := false })
  | .created (.error e) =>
      (.error ("Failed to open serial port \"" ++ s.comPort ++ "\": " ++ e),
        { s with
          connected := false
          port := some s.nextId
          nextId := s.nextId + 1 })
  | .created (.ok _) =>
      (.ok (),
        { s with
          connected := true
          port := some s.nextId
          openHandles := s.openHandles ++ [s.nextId]
          nextId := s.nextId + 1 })

/-- `SerialAdapter.disconnect` (`serialAdapter.ts` lines 70-95): with
no referenced port just clear `connected`; with a referenced closed
port also drop the reference; with an open port call `close` (which
releases the OS handle), clear both fields, and reject only if `close`
reported an error. -/
def serialDisconnect (closeResult : Except String Unit) (s : SerialEnv) :
    Except String Unit × SerialEnv :=
  match s.port with
  | none => (.ok (), { s with connected := false })
  | some pid =>
      if s.openHandles.contains pid then
        match closeResult with
        | .ok _ =>
            (.ok (), { s with
              connected := false
              port := none
              openHandles := s.openHandles.erase pid })
        | .error e =>
            (.error ("Failed to close serial port: " ++ e),
              { s with
                connected := false
                port := none
                openHandles := s.openHandles.erase pid })
      else (.ok (), { s with connected := false, port := none })

/-- `SerialAdapter.print` (`serialAdapter.ts` lines 101-145):
`ensureConnected()` first, then the port-open check, then a single
`write` of the combined buffer followed by `drain`; it resolves only
when both the write callback and the drain callback report success.
The second component lists the buffers written to the port. -/
def serialPrint (data : String) (writeResult drainResult : Except String Unit)
    (s : SerialEnv) : Except String Unit × List (List Nat) :=
  if !s.connected then (.error "Printer is not connected", [])
  else if !portOpen s then (.error "Serial port is not open", [])
  else
    match writeResult with
    | .error e =>
        (.error ("Failed to write to serial port: " ++ e), [printBuffer data])
    | .ok _ =>
        match drainResult with
        | .error e =>
            (.error ("Failed to drain serial port: " ++ e), [printBuffer data])
        | .ok _ => (.ok (), [printBuffer data])

/-- State of a `USBAdapter`: the `connected` flag and whether
`this.printer` is non-null. -/
structure USBState where
  connected : Bool
  hasPrinter : Bool
  deriving DecidableEq, Repr

/-- Transport operations of `USBAdapter.print`. -/
inductive USBOp where
  | clearOp
  | printlnOp (data : String)
  | executeOp
  deriving DecidableEq, Repr

/-- `USBAdapter.print` (`usbAdapter.ts`): `ensureConnected()`, the
printer-instance check, then `clear`, `println(data)` and `execute`,
wrapping an `execute` failure in a `PrintError`. -/
def usbPrint (data : String) (executeResult : Except String Unit)
    (s : USBState) : Except String Unit × List USBOp :=
  if !s.connected then (.error "Printer is not connected", [])
  else if !s.hasPrinter then (.error "Printer instance is not available", [])
  else
    match executeResult with
    | .ok _ => (.ok (), [.clearOp, .printlnOp data, .executeOp])
    | .error e =>
        (.error ("Failed to print: " ++ e),
          [.clearOp, .printlnOp data, .executeOp])

/-- `USBAdapter.disconnect` (`usbAdapter.ts`): clears the flag and
drops the printer instance; never fails. -/
def usbDisconnect (_s : USBState) : Except String Unit × USBState :=
  (.ok (), { connected := false, hasPrinter := false })

/-- State of a `MockAdapter`: only the `connected` flag. -/
structure MockState where
  connected : Bool
  deriving DecidableEq, Repr

/-- `MockAdapter.print` (`mockAdapter.ts` lines 39-51):
`ensureConnected()`, then log the payload (the observation
side-channel, returned as the second component) and succeed. -/
def mockPrint (data : String) (s : MockState) :
    Except String Unit × List String :=
  if !s.connected then (.error "Printer is not connected", [])
  else (.ok (), [data])

/-- `MockAdapter.disconnect` (`mockAdapter.ts` lines 29-33): clears the
flag; never fails. -/
def mockDisconnect (_s : MockState) : Except String Unit × MockState :=
  (.ok (), { connected := false })

/-- A freshly constructed serial adapter on "COM3": disconnected, no
port referenced, no OS handle open. -/
def initialSerial : SerialEnv :=
  { comPort := "COM3", connected := false, port := none,
    openHandles := [], nextId := 0 }

/-- The serial adapter after one successful `connect()`. -/
def openSerial : SerialEnv :=
  (serialConnect (.created (.ok ())) initialSerial).2

/-- Four sample jobs for the queue scenarios. -/
def sampleJobs : List Job :=
  [⟨0, "A"⟩, ⟨1, "B"⟩, ⟨2, "C"⟩, ⟨3, "D"⟩]

/-- A print function that jams on payload "B" and succeeds otherwise. -/
def jamOnB : String → Except String Unit :=
  fun d => if d = "B" then .error "jam" else .ok ()

/-! ### Helper lemmas about the retry loop -/

@[simp] lemma printCalls_nil : printCalls [] = [] := rfl

@[simp] lemma printCalls_cons_print (n : Nat) (t : List MEvent) :
    printCalls (MEvent.printCall n :: t) = n :: printCalls t := rfl

@[simp] lemma printCalls_cons_delay (t : List MEvent) :
    printCalls (MEvent.delayCall :: t) = printCalls t := rfl

@[simp] lemma printCalls_cons_connect (t : List MEvent) :
    printCalls (MEvent.connectCall :: t) = printCalls t := rfl

@[simp] lemma printCalls_cons_disconnect (t : List MEvent) :
    printCalls (MEvent.disconnectCall :: t) = printCalls t := rfl

@[simp] lemma printCalls_cons_warn (t : List MEvent) :
    printCalls (MEvent.warnLog :: t) = printCalls t := rfl

@[simp] lemma printCalls_append (l m : List MEvent) :
    printCalls (l ++ m) = printCalls l ++ printCalls m := by
  simp [printCalls, List.filterMap_append]

lemma printCalls_reconnectEvents (b : MBehavior) (n : Nat) :
    printCalls (reconnectEvents b n) = [] := by
  unfold reconnectEvents
  cases b.disconnectResult n with
  | error e => rfl
  | ok u =>
      cases b.reconnectConnectResult n with
      | error e => rfl
      | ok u => rfl

/-- One-step unfolding of `retryLoop` on a failing attempt. -/
lemma retryLoop_error_step (b : MBehavior) (mr : Int) (a s : Nat)
    (le : Option String) (e : String) (h : b.printResult a = .error e) :
    retryLoop b mr a (s + 1) le =
      ((retryLoop b mr (a + 1) s (some e)).1,
        (MEvent.printCall a ::
          (if s = 0 then [] else MEvent.delayCall :: reconnectEvents b a)) ++
          (retryLoop b mr (a + 1) s (some e)).2) := by
  simp [retryLoop, h]

lemma retryLoop_trace_cons (b : MBehavior) (mr : Int) (a s : Nat)
    (le : Option String) :
    ∃ t, (retryLoop b mr a (s + 1) le).2 = MEvent.printCall a :: t := by
  cases h : b.printResult a with
  | ok u => exact ⟨[], by simp [retryLoop, h]⟩
  | error e =>
      exact ⟨(if s = 0 then [] else MEvent.delayCall :: reconnectEvents b a) ++
        (retryLoop b mr (a + 1) s (some e)).2, by simp [retryLoop, h]⟩

/-- If every attempt in the window fails, the loop makes exactly one
`adapter.print` call per remaining iteration (attempts `a, a+1, …`) and
throws the exhausted error built from the last attempt's error. -/
lemma retryLoop_all_fail (b : MBehavior) (mr : Int) (e : Nat → String) :
    ∀ r a le, 1 ≤ r →
      (∀ i, a ≤ i → i < a + r → b.printResult i = .error (e i)) →
      (retryLoop b mr a r le).1 =
        .error (exhaustedMessage mr (some (e (a + r - 1)))) ∧
      printCalls (retryLoop b mr a r le).2 = List.range' a r := by
  intro r
  induction r with
  | zero => intro a le h; omega
  | succ s ih =>
      intro a le _ hfail
      have ha : b.printResult a = .error (e a) := hfail a (le_refl a) (by omega)
      by_cases hs : s = 0
      · subst hs
        have harith : a + 1 - 1 = a := by omega
        simp [retryLoop, ha, harith, List.range']
      · have ih2 := ih (a + 1) (some (e a)) (by omega)
          (fun i h1 h2 => hfail i (by omega) (by omega))
        have harith : a + 1 + s - 1 = a + (s + 1) - 1 := by omega
        rw [harith] at ih2
        constructor
        · simpa [retryLoop, ha] using ih2.1
        · rw [List.range'_succ a s 1]
          simpa [retryLoop, ha, hs, printCalls_reconnectEvents] using ih2.2

/-- If the attempts `a, …, a+j-1` fail and attempt `a+j` succeeds within
the window, the loop returns success after exactly `j+1` `adapter.print`
calls. -/
lemma retryLoop_first_success (b : MBehavior) (mr : Int) :
    ∀ j a r le,
      (∀ m, a ≤ m → m < a + j → ∃ em, b.printResult m = .error em) →
      b.printResult (a + j) = .ok () → a + j < a + r →
      (retryLoop b mr a r le).1 = .ok () ∧
      printCalls (retryLoop b mr a r le).2 = List.range' a (j + 1) := by
  intro j
  induction j with
  | zero =>
      intro a r le _ hok hlt
      obtain ⟨s, rfl⟩ : ∃ s, r = s + 1 := ⟨r - 1, by omega⟩
      simp only [Nat.add_zero] at hok
      simp [retryLoop, hok, List.range']
  | succ i ih =>
      intro a r le hfail hok hlt
      obtain ⟨ea, hea⟩ := hfail a (le_refl a) (by omega)
      obtain ⟨s, rfl⟩ : ∃ s, r = s + 1 := ⟨r - 1, by omega⟩
      have hs : s ≠ 0 := by omega
      have harith : a + 1 + i = a + (i + 1) := by omega
      have ih2 := ih (a + 1) s (some ea)
        (fun m h1 h2 => hfail m (by omega) (by omega))
        (by rw [harith]; exact hok) (by omega)
      constructor
      · simpa [retryLoop, hea] using ih2.1
      · rw [List.range'_succ a (i + 1) 1]
        simpa [retryLoop, hea, hs, printCalls_reconnectEvents] using ih2.2

/-- The outcome of the retry loop and its sequence of `adapter.print`
calls do not depend on the outcomes of the reconnect-step calls. -/
lemma retryLoop_reconnect_irrel (b : MBehavior)
    (d c : Nat → Except String Unit) (mr : Int) :
    ∀ r a le,
      (retryLoop { b with disconnectResult := d, reconnectConnectResult := c }
          mr a r le).1 = (retryLoop b mr a r le).1 ∧
      printCalls (retryLoop
          { b with disconnectResult := d, reconnectConnectResult := c }
          mr a r le).2 = printCalls (retryLoop b mr a r le).2 := by
  intro r
  induction r with
  | zero => intro a le; simp [retryLoop]
  | succ s ih =>
      intro a le
      cases h : b.printResult a with
      | ok u => simp [retryLoop, h]
      | error e =>
          have ih2 := ih (a + 1) (some e)
          by_cases hs : s = 0
          · subst hs
            simp [retryLoop, h, ih2.1]
          · constructor
            · simpa [retryLoop, h] using ih2.1
            · simp [retryLoop, h, hs, printCalls_reconnectEvents, ih2.2]

/-- After `j` failing attempts, a further failing attempt `a+j` that is
not the last of the window is followed in the trace by the retry delay,
the reconnect step, and the next `adapter.print` call. -/
lemma retryLoop_reconnect_between (b : MBehavior) (mr : Int) :
    ∀ j a r le,
      (∀ m, a ≤ m → m < a + j → ∃ em, b.printResult m = .error em) →
      (∃ en, b.printResult (a + j) = .error en) → j + 2 ≤ r →
      ([MEvent.printCall (a + j), MEvent.delayCall] ++
          reconnectEvents b (a + j) ++ [MEvent.printCall (a + j + 1)])
        <:+: (retryLoop b mr a r le).2 := by
  intro j
  induction j with
  | zero =>
      intro a r le _ hfe hr
      simp only [Nat.add_zero] at hfe ⊢
      obtain ⟨ea, hea⟩ := hfe
      obtain ⟨s, rfl⟩ : ∃ s, r = s + 2 := ⟨r - 2, by omega⟩
      obtain ⟨t, ht⟩ := retryLoop_trace_cons b mr (a + 1) s (some ea)
      refine ⟨[], t, ?_⟩
      rw [retryLoop_error_step b mr a (s + 1) le ea hea, ht]
      simp
  | succ i ih =>
      intro a r le hfail hfe hr
      obtain ⟨ea, hea⟩ := hfail a (le_refl a) (by omega)
      obtain ⟨s, rfl⟩ : ∃ s, r = s + 1 := ⟨r - 1, by omega⟩
      have hs : s ≠ 0 := by omega
      have harith : a + 1 + i = a + (i + 1) := by omega
      have ih2 := ih (a + 1) s (some ea)
        (fun m h1 h2 => hfail m (by omega) (by omega))
        (by rw [harith]; exact hfe) (by omega)
      rw [harith] at ih2
      obtain ⟨p, q, hpq⟩ := ih2
      refine ⟨MEvent.printCall a :: MEvent.delayCall ::
        reconnectEvents b a ++ p, q, ?_⟩
      rw [retryLoop_error_step b mr a s le ea hea, ← hpq]
      simp [hs]

/-- Claim C1: a run over the jobs of N submissions dispatches the print
function exactly N times, once per job in submission order, each
dispatch ending before the next begins (the start/end projection is the
strict alternation `start j₁, end j₁, start j₂, end j₂, …`), and every
job's handle is settled exactly once according to its own print outcome,
so one job's rejection never prevents a later job's dispatch. -/
theorem queue_dispatches_in_order_one_at_a_time
    (printF : String → Except String Unit) (jobs : List Job) :
    startEnds (processJobs printF jobs none) =
      jobs.flatMap (fun j => [QEvent.printStart j.data, QEvent.printEnd j.data]) ∧
    settles (processJobs printF jobs none) =
      jobs.map (fun j => settleEvent j (printF j.data)) := by
  induction jobs with
  | nil => simp [processJobs, startEnds, settles]
  | cons j rest ih =>
      refine ⟨?_, ?_⟩
      · simp [processJobs, startEnds, List.filter] at ih ⊢
        cases h : printF j.data <;> simp [settleEvent, h, ih.1]
      · simp [processJobs, settles, List.filter] at ih ⊢
        cases h : printF j.data <;> simp [settleEvent, h, ih.2]

/-! ### Claims about the printer manager -/

/-- Claim C10: `maxRetries` is not validated; with a connected adapter
and `maxRetries ≤ 0` the retry loop body never runs, so
`PrinterManager.print` makes zero adapter print calls (empty trace) and
throws the exhausted-retries error, whose message states the
non-positive attempt count and `Unknown error` as the last error. -/
theorem manager_nonpositive_retries (b : MBehavior) (mr : Int)
    (hc : b.initConnected = true) (hmr : mr ≤ 0) :
    managerPrint b mr = (.error (exhaustedMessage mr none), []) ∧
    exhaustedMessage mr none =
      "Print failed after " ++ toString mr ++
        " attempts. Last error: Unknown error" := by
  have h0 : mr.toNat = 0 := by omega
  refine ⟨?_, ?_⟩
  · simp [managerPrint, hc, h0, retryLoop]
  · simp only [exhaustedMessage, lastErrorMessage]
    rw [String.append_assoc]
    rfl

/-- Claim C10 witness at `maxRetries = -2`. -/
theorem manager_nonpositive_retries_witness :
    managerPrint
        { initConnected := true, connectResult := .ok (),
          printResult := fun _ => .error "jam",
          disconnectResult := fun _ => .ok (),
          reconnectConnectResult := fun _ => .ok () } (-2) =
      (.error "Print failed after -2 attempts. Last error: Unknown error",
        []) := by
  have h := manager_nonpositive_retries
    { initConnected := true, connectResult := .ok (),
      printResult := fun _ => .error "jam",
      disconnectResult := fun _ => .ok (),
      reconnectConnectResult := fun _ => .ok () } (-2) rfl (by decide)
  rw [h.1]
  rfl

/-- Claim C2: with a connected adapter and a positive retry budget
`maxRetries = k`: if every attempt fails, exactly the attempts
`1, …, k` call `adapter.print` and the thrown message embeds the
attempt count `k` and the last underlying error's message; if attempt
`n` is the first to succeed, `print` returns success immediately after
`n` adapter print calls. -/
theorem manager_retry_budget (b : MBehavior) (mr : Int)
    (hc : b.initConnected = true) (hmr : 1 ≤ mr) :
    (∀ e : Nat → String,
      (∀ n, 1 ≤ n → n ≤ mr.toNat → b.printResult n = .error (e n)) →
      e mr.toNat ≠ "" →
      (managerPrint b mr).1 =
        .error ("Print failed after " ++ toString mr ++
          " attempts. Last error: " ++ e mr.toNat) ∧
      printCalls (managerPrint b mr).2 = List.range' 1 mr.toNat) ∧
    (∀ n, 1 ≤ n → n ≤ mr.toNat → b.printResult n = .ok () →
      (∀ m, 1 ≤ m → m < n → ∃ em, b.printResult m = .error em) →
      (managerPrint b mr).1 = .ok () ∧
      printCalls (managerPrint b mr).2 = List.range' 1 n) := by
  have hk : 1 ≤ mr.toNat := by omega
  constructor
  · intro e hfail hne
    have h := retryLoop_all_fail b mr e mr.toNat 1 none hk
      (fun i h1 h2 => hfail i h1 (by omega))
    have harith : 1 + mr.toNat - 1 = mr.toNat := by omega
    rw [harith] at h
    constructor
    · have hm : (managerPrint b mr).1 = (retryLoop b mr 1 mr.toNat none).1 := by
        simp [managerPrint, hc]
      rw [hm, h.1]
      simp [exhaustedMessage, lastErrorMessage, hne]
    · have hm : (managerPrint b mr).2 = (retryLoop b mr 1 mr.toNat none).2 := by
        simp [managerPrint, hc]
      rw [hm, h.2]
  · intro n hn1 hnk hok hfail
    have h := retryLoop_first_success b mr (n - 1) 1 mr.toNat none
      (fun m h1 h2 => hfail m h1 (by omega))
      (by rw [show 1 + (n - 1) = n from by omega]; exact hok)
      (by omega)
    rw [show (n - 1) + 1 = n from by omega] at h
    constructor
    · simpa [managerPrint, hc] using h.1
    · simpa [managerPrint, hc] using h.2

/-- Claim C2 witness: with three always-failing attempts the manager
prints 3 times and reports the last error; succeeding on attempt 2
stops after 2 print calls. -/
theorem manager_retry_budget_witness :
    (managerPrint
        { initConnected := true, connectResult := .ok (),
          printResult := fun _ => .error "jam",
          disconnectResult := fun _ => .ok (),
          reconnectConnectResult := fun _ => .ok () } 3).1 =
      .error "Print failed after 3 attempts. Last error: jam" ∧
    printCalls (managerPrint
        { initConnected := true, connectResult := .ok (),
          printResult := fun _ => .error "jam",
          disconnectResult := fun _ => .ok (),
          reconnectConnectResult := fun _ => .ok () } 3).2 = [1, 2, 3] ∧
    (managerPrint
        { initConnected := true, connectResult := .ok (),
          printResult := fun n => if n = 2 then .ok () else .error "jam",
          disconnectResult := fun _ => .ok (),
          reconnectConnectResult := fun _ => .ok () } 3).1 = .ok () ∧
    printCalls (managerPrint
        { initConnected := true, connectResult := .ok (),
          printResult := fun n => if n = 2 then .ok () else .error "jam",
          disconnectResult := fun _ => .ok (),
          reconnectConnectResult := fun _ => .ok () } 3).2 = [1, 2] := by
  have h1 := (manager_retry_budget
    { initConnected := true, connectResult := .ok (),
      printResult := fun _ => .error "jam",
      disconnectResult := fun _ => .ok (),
      reconnectConnectResult := fun _ => .ok () } 3 rfl (by decide)).1
    (fun _ => "jam") (fun n _ _ => rfl) (by decide)
  have h2 := (manager_retry_budget
    { initConnected := true, connectResult := .ok (),
      printResult := fun n => if n = 2 then .ok () else .error "jam",
      disconnectResult := fun _ => .ok (),
      reconnectConnectResult := fun _ => .ok () } 3 rfl (by decide)).2
    2 (by decide) (by decide) rfl
    (fun m hm1 hm2 => ⟨"jam", by
      have hm : m = 1 := by omega
      subst hm; rfl⟩)
  refine ⟨?_, ?_, h2.1, ?_⟩
  · rw [h1.1]
    rfl
  · rw [h1.2]
    rfl
  · rw [h2.2]
    rfl

/-- Claim C5: when the adapter reports not connected, `print` calls
`connect()` exactly once before any adapter print attempt; if that
connect fails, its error propagates unchanged and no print attempt is
made. -/
theorem manager_connects_once_before_print (b : MBehavior) (mr : Int)
    (hnc : b.initConnected = false) :
    (∀ ce, b.connectResult = .error ce →
      managerPrint b mr = (.error ce, [MEvent.connectCall])) ∧
    connectCallsBeforePrint (managerPrint b mr).2 = 1 := by
  constructor
  · intro ce hce
    simp [managerPrint, hnc, hce]
  · cases hcr : b.connectResult with
    | error e =>
        simp [managerPrint, hnc, hcr, connectCallsBeforePrint,
          List.takeWhile, isPrintCall, isConnectCall, List.filter]
    | ok u =>
        have hshape : (retryLoop b mr 1 mr.toNat none).2 = [] ∨
            ∃ t, (retryLoop b mr 1 mr.toNat none).2 =
              MEvent.printCall 1 :: t := by
          cases hmt : mr.toNat with
          | zero => left; simp [retryLoop]
          | succ s => right; exact retryLoop_trace_cons b mr 1 s none
        rcases hshape with h0 | ⟨t, ht⟩
        · simp [managerPrint, hnc, hcr, h0, connectCallsBeforePrint,
            List.takeWhile, isPrintCall, isConnectCall, List.filter]
        · simp [managerPrint, hnc, hcr, ht, connectCallsBeforePrint,
            List.takeWhile, isPrintCall, isConnectCall, List.filter]

/-- Claim C5 witness: failed initial connect propagates with zero print
attempts; the connect call happens exactly once before any print. -/
theorem manager_connects_once_witness :
    managerPrint
        { initConnected := false, connectResult := .error "no device",
          printResult := fun _ => .error "jam",
          disconnectResult := fun _ => .ok (),
          reconnectConnectResult := fun _ => .ok () } 3 =
      (.error "no device", [MEvent.connectCall]) ∧
    connectCallsBeforePrint (managerPrint
        { initConnected := false, connectResult := .error "no device",
          printResult := fun _ => .error "jam",
          disconnectResult := fun _ => .ok (),
          reconnectConnectResult := fun _ => .ok () } 3).2 = 1 := by
  have h := manager_connects_once_before_print
    { initConnected := false, connectResult := .error "no device",
      printResult := fun _ => .error "jam",
      disconnectResult := fun _ => .ok (),
      reconnectConnectResult := fun _ => .ok () } 3 rfl
  exact ⟨h.1 "no device" rfl, h.2⟩

/-- Claim C6: errors of the reconnect step (`disconnect()` then
`connect()` after a failed non-final attempt) are swallowed: the
manager's outcome and its sequence of adapter print calls are
independent of the reconnect outcomes, and after every failed attempt
that is not the last the trace contains the retry delay, the reconnect
step and then the next print attempt. -/
theorem manager_reconnect_errors_swallowed (b : MBehavior)
    (d c : Nat → Except String Unit) (mr : Int) :
    (managerPrint
        { b with disconnectResult := d, reconnectConnectResult := c }
        mr).1 = (managerPrint b mr).1 ∧
    printCalls (managerPrint
        { b with disconnectResult := d, reconnectConnectResult := c }
        mr).2 = printCalls (managerPrint b mr).2 ∧
    (∀ n, 1 ≤ n → n + 1 ≤ mr.toNat →
      (∀ m, 1 ≤ m → m ≤ n → ∃ em, b.printResult m = .error em) →
      b.initConnected = true →
      ([MEvent.printCall n, MEvent.delayCall] ++ reconnectEvents b n ++
        [MEvent.printCall (n + 1)]) <:+: (managerPrint b mr).2) := by
  have hlr := retryLoop_reconnect_irrel b d c mr mr.toNat 1 none
  refine ⟨?_, ?_, ?_⟩
  · by_cases hic : b.initConnected = true
    · simpa [managerPrint, hic] using hlr.1
    · rw [Bool.not_eq_true] at hic
      cases hcr : b.connectResult with
      | error e => simp [managerPrint, hic, hcr]
      | ok u => simpa [managerPrint, hic, hcr] using hlr.1
  · by_cases hic : b.initConnected = true
    · simpa [managerPrint, hic] using hlr.2
    · rw [Bool.not_eq_true] at hic
      cases hcr : b.connectResult with
      | error e => simp [managerPrint, hic, hcr]
      | ok u => simpa [managerPrint, hic, hcr] using hlr.2
  · intro n hn1 hnk hfail hic
    have h := retryLoop_reconnect_between b mr (n - 1) 1 mr.toNat none
      (fun m h1 h2 => hfail m h1 (by omega))
      (by rw [show 1 + (n - 1) = n from by omega]
          exact hfail n hn1 (le_refl n))
      (by omega)
    rw [show 1 + (n - 1) = n from by omega] at h
    simpa [managerPrint, hic] using h

/-- Claim C6 witness: with a failing `disconnect()` in the reconnect
step the outcome and print attempts match those of a behaviour whose
reconnect succeeds, and the delay/reconnect/next-attempt pattern
appears in the trace. -/
theorem manager_reconnect_swallowed_witness :
    (managerPrint
        { initConnected := true, connectResult := .ok (),
          printResult := fun _ => .error "jam",
          disconnectResult := fun _ => .ok (),
          reconnectConnectResult := fun _ => .error "cfail" } 3).1 =
      (managerPrint
        { initConnected := true, connectResult := .ok (),
          printResult := fun _ => .error "jam",
          disconnectResult := fun _ => .error "dfail",
          reconnectConnectResult := fun _ => .ok () } 3).1 ∧
    ([MEvent.printCall 1, MEvent.delayCall] ++
        reconnectEvents
          { initConnected := true, connectResult := .ok (),
            printResult := fun _ => .error "jam",
            disconnectResult := fun _ => .error "dfail",
            reconnectConnectResult := fun _ => .ok () } 1 ++
        [MEvent.printCall 2]) <:+:
      (managerPrint
        { initConnected := true, connectResult := .ok (),
          printResult := fun _ => .error "jam",
          disconnectResult := fun _ => .error "dfail",
          reconnectConnectResult := fun _ => .ok () } 3).2 := by
  have h := manager_reconnect_errors_swallowed
    { initConnected := true, connectResult := .ok (),
      printResult := fun _ => .error "jam",
      disconnectResult := fun _ => .error "dfail",
      reconnectConnectResult := fun _ => .ok () }
    (fun _ => .ok ()) (fun _ => .error "cfail") 3
  exact ⟨h.1, h.2.2 1 (by decide) (by decide)
    (fun m _ _ => ⟨"jam", rfl⟩) rfl⟩

/-! ### Claims about the queue's clear() and the adapters -/

@[simp] lemma settles_nil : settles [] = [] := rfl

@[simp] lemma settles_append (l m : List QEvent) :
    settles (l ++ m) = settles l ++ settles m := by
  simp [settles, List.filter_append]

@[simp] lemma settles_cons_start (d : String) (t : List QEvent) :
    settles (QEvent.printStart d :: t) = settles t := by
  simp [settles, List.filter_cons]

@[simp] lemma settles_cons_end (d : String) (t : List QEvent) :
    settles (QEvent.printEnd d :: t) = settles t := by
  simp [settles, List.filter_cons]

@[simp] lemma settles_cons_resolved (i : Nat) (t : List QEvent) :
    settles (QEvent.resolved i :: t) = QEvent.resolved i :: settles t := by
  simp [settles, List.filter_cons]

@[simp] lemma settles_cons_rejected (i : Nat) (m : String) (t : List QEvent) :
    settles (QEvent.rejected i m :: t) =
      QEvent.rejected i m :: settles t := by
  simp [settles, List.filter_cons]

@[simp] lemma settles_cons_settle (j : Job) (r : Except String Unit)
    (t : List QEvent) :
    settles (settleEvent j r :: t) = settleEvent j r :: settles t := by
  cases r <;> simp [settleEvent]

@[simp] lemma settles_map_rejected (msg : String) (l : List Job) :
    settles (l.map fun j => QEvent.rejected j.id msg) =
      l.map fun j => QEvent.rejected j.id msg := by
  induction l with
  | nil => rfl
  | cons a t ih => simp [ih]

lemma settles_processJobs_clear (printF : String → Except String Unit) :
    ∀ (jobs : List Job) (k : Nat) (h : k < jobs.length),
      settles (processJobs printF jobs (some k)) =
        (jobs.take k).map (fun j => settleEvent j (printF j.data)) ++
        (jobs.drop (k + 1)).map
          (fun j => QEvent.rejected j.id "Print queue was cleared") ++
        [settleEvent (jobs.get ⟨k, h⟩) (printF (jobs.get ⟨k, h⟩).data)] := by
  intro jobs
  induction jobs with
  | nil => intro k h; simp at h
  | cons j rest ih =>
      intro k h
      cases k with
      | zero =>
          simp [processJobs, clearQueue]
      | succ k2 =>
          have h2 : k2 < rest.length := by simpa using h
          simp [processJobs, ih k2 h2]

/-- Claim C7: `clear()` while job `k` is mid-dispatch removes every
pending (not-yet-dispatched) job and rejects each with the
queue-cleared error; jobs dispatched before the clear settled per their
own print outcome, and the in-flight job is unaffected — it still
settles according to its own print outcome.  The queue itself is left
empty. -/
theorem queue_clear_rejects_pending_spares_inflight
    (printF : String → Except String Unit) (jobs : List Job) (k : Nat)
    (h : k < jobs.length) :
    settles (processJobs printF jobs (some k)) =
      (jobs.take k).map (fun j => settleEvent j (printF j.data)) ++
      (jobs.drop (k + 1)).map
        (fun j => QEvent.rejected j.id "Print queue was cleared") ++
      [settleEvent (jobs.get ⟨k, h⟩) (printF (jobs.get ⟨k, h⟩).data)] ∧
    (clearQueue (jobs.drop (k + 1))).2 = [] := by
  exact ⟨settles_processJobs_clear printF jobs k h, rfl⟩

/-- Claim C7 witness: `clear()` during job "B" (which jams): "A"
resolved before, pending "C" and "D" rejected as cleared, and the
in-flight "B" still rejected with its own print error. -/
theorem queue_clear_witness :
    settles (processJobs jamOnB sampleJobs (some 1)) =
      [QEvent.resolved 0, QEvent.rejected 2 "Print queue was cleared",
       QEvent.rejected 3 "Print queue was cleared",
       QEvent.rejected 1 "jam"] ∧
    (clearQueue (sampleJobs.drop 2)).2 = [] := by
  have h := queue_clear_rejects_pending_spares_inflight jamOnB sampleJobs 1
    (by decide)
  refine ⟨?_, h.2⟩
  rw [h.1]
  rfl

/-- Claim C3: a connected serial adapter with an open port writes
exactly one buffer: the ESC/POS reset `0x1B 0x40`, the UTF-8 payload,
the two bytes of `"\n\n"`, and the cut sequence `0x1D 0x56 0x41 0x00`,
concatenated in that order; and the call resolves successfully only if
both the write and the drain callbacks confirmed success. -/
theorem serial_print_wire_format (data : String)
    (wr dr : Except String Unit) (s : SerialEnv)
    (hc : s.connected = true) (hp : portOpen s = true) :
    (serialPrint data wr dr s).2 =
      [[0x1b, 0x40] ++ utf8Bytes data ++ [10, 10] ++
        [0x1d, 0x56, 0x41, 0x00]] ∧
    ((serialPrint data wr dr s).1 = .ok () →
      wr = .ok () ∧ dr = .ok ()) := by
  have hnn : utf8Bytes "\n\n" = [10, 10] := rfl
  constructor
  · cases wr <;> cases dr <;> simp [serialPrint, hc, hp, printBuffer, hnn]
  · intro hok
    cases wr with
    | error e => simp [serialPrint, hc, hp] at hok
    | ok u =>
        cases dr with
        | error e => simp [serialPrint, hc, hp] at hok
        | ok u2 => exact ⟨rfl, rfl⟩

/-- Claim C3 witness on the payload "hi" over a freshly connected
port. -/
theorem serial_print_wire_format_witness :
    (serialPrint "hi" (.ok ()) (.ok ()) openSerial).2 =
      [[0x1b, 0x40, 104, 105, 10, 10, 0x1d, 0x56, 0x41, 0x00]] ∧
    (serialPrint "hi" (.ok ()) (.ok ()) openSerial).1 = .ok () := by
  have h := serial_print_wire_format "hi" (.ok ()) (.ok ()) openSerial
    (by decide) (by decide)
  refine ⟨?_, ?_⟩
  · rw [h.1]
    rfl
  · rfl

/-- Claim C4: on every adapter variant, `print` while `isConnected()`
is false fails with the not-connected precondition error and performs
zero transport operations. -/
theorem adapters_reject_print_when_disconnected (data : String)
    (wr dr er : Except String Unit) (s : SerialEnv) (us : USBState)
    (ms : MockState) :
    (s.connected = false →
      serialPrint data wr dr s = (.error "Printer is not connected", [])) ∧
    (us.connected = false →
      usbPrint data er us = (.error "Printer is not connected", [])) ∧
    (ms.connected = false →
      mockPrint data ms = (.error "Printer is not connected", [])) := by
  refine ⟨fun h => ?_, fun h => ?_, fun h => ?_⟩
  · simp [serialPrint, h]
  · simp [usbPrint, h]
  · simp [mockPrint, h]

/-- Claim C4 witness: each disconnected adapter rejects with zero
transport operations. -/
theorem adapters_reject_print_witness :
    serialPrint "x" (.ok ()) (.ok ()) initialSerial =
      (.error "Printer is not connected", []) ∧
    usbPrint "x" (.ok ()) { connected := false, hasPrinter := true } =
      (.error "Printer is not connected", []) ∧
    mockPrint "x" { connected := false } =
      (.error "Printer is not connected", []) := by
  have h := adapters_reject_print_when_disconnected "x" (.ok ()) (.ok ())
    (.ok ()) initialSerial { connected := false, hasPrinter := true }
    { connected := false }
  exact ⟨h.1 rfl, h.2.1 rfl, h.2.2 rfl⟩

/-- Claim C8 counterexample: calling `connect()` on a serial adapter
that already holds an open port does NOT tear the prior transport
down: after the second `connect()` two OS handles (ids 0 and 1) are
open while the adapter references only id 1, so the prior open handle
is leaked — refuting "after connect() at most one open transport
handle exists and the prior handle is not leaked". -/
theorem serial_double_connect_leaks :
    (serialConnect (.created (.ok ())) openSerial).2.openHandles = [0, 1] ∧
    ¬ (serialConnect (.created (.ok ())) openSerial).2.openHandles.length ≤ 1 ∧
    (serialConnect (.created (.ok ())) openSerial).2.port = some 1 := by
  refine ⟨rfl, by decide, rfl⟩

/-- Claim C8 (amended): `connect()` on a serial adapter already holding
an open transport does not tear it down; it constructs a fresh port,
re-points the adapter at it, and leaves every previously open handle
open (the prior handle is leaked rather than closed). -/
theorem serial_connect_replaces_without_teardown (s : SerialEnv)
    (r : Except String Unit) :
    (serialConnect (.created r) s).2.port = some s.nextId ∧
    ∀ h, h ∈ s.openHandles →
      h ∈ (serialConnect (.created r) s).2.openHandles := by
  cases r with
  | ok u =>
      constructor
      · rfl
      · intro h hm
        show h ∈ s.openHandles ++ [s.nextId]
        exact List.mem_append_left _ hm
  | error e =>
      constructor
      · rfl
      · intro h hm
        exact hm

/-- Claim C8 amended-theorem witness: reconnecting the already-open
adapter keeps handle 0 open while referencing the new port 1. -/
theorem serial_connect_no_teardown_witness :
    (serialConnect (.created (.ok ())) openSerial).2.port = some 1 ∧
    0 ∈ (serialConnect (.created (.ok ())) openSerial).2.openHandles := by
  have h := serial_connect_replaces_without_teardown openSerial (.ok ())
  exact ⟨h.1, h.2 0 (by decide)⟩

/-- Claim C9: `disconnect()` is idempotent on every adapter variant:
after any `disconnect()` the adapter reports not connected, and a
second consecutive `disconnect()` succeeds without error and leaves
the state exactly as the first left it. -/
theorem adapters_disconnect_idempotent (s : SerialEnv)
    (cr1 cr2 : Except String Unit) (us : USBState) (ms : MockState) :
    (serialDisconnect cr2 (serialDisconnect cr1 s).2 =
        (.ok (), (serialDisconnect cr1 s).2) ∧
      (serialDisconnect cr1 s).2.connected = false) ∧
    (usbDisconnect (usbDisconnect us).2 = (.ok (), (usbDisconnect us).2) ∧
      (usbDisconnect us).2.connected = false) ∧
    (mockDisconnect (mockDisconnect ms).2 = (.ok (), (mockDisconnect ms).2) ∧
      (mockDisconnect ms).2.connected = false) := by
  have hprops : ∀ (cr : Except String Unit) (t : SerialEnv),
      (serialDisconnect cr t).2.port = none ∧
      (serialDisconnect cr t).2.connected = false := by
    intro cr t
    unfold serialDisconnect
    cases hp : t.port with
    | none => simp
    | some pid =>
        by_cases hmem : pid ∈ t.openHandles
        · cases cr <;> simp [hmem]
        · simp [hmem]
  have key : ∀ (cr : Except String Unit) (t : SerialEnv), t.port = none →
      t.connected = false → serialDisconnect cr t = (.ok (), t) := by
    intro cr t hp hc
    cases t
    simp only at hp hc
    subst hp
    subst hc
    rfl
  exact ⟨⟨key cr2 _ (hprops cr1 s).1 (hprops cr1 s).2, (hprops cr1 s).2⟩,
    ⟨rfl, rfl⟩, ⟨rfl, rfl⟩⟩

end POSPrinter
